import Mathlib

/-!
Verification of the yt-gui download front-end (src/main.py) against its
natural-language specification.  The Python source is shallowly embedded:
pure fragments become Lean functions, the Qt signal emissions of the
background worker become an explicit list of emissions, and Python
exceptions become `Except` values.  Python floats are modelled by exact
fractions (numerator and denominator); the special values inf/nan are
outside this model.
-/

namespace YTGui

/-- One emission of the `DownloadWorker` thread: the `progress` signal
carries an int, the `log` signal carries a string, and the parameterless
`finished` signal marks completion. -/
inductive Emit where
  | progress (n : Int)
  | logLine (s : String)
  | finishedSignal
deriving DecidableEq

/-- The Python exceptions the repository's own code can raise inside the
progress hook: a `KeyError` from the unconditional `d['status']` lookup and
a `ZeroDivisionError` from the unguarded divisions. -/
inductive PyErr where
  | keyError (k : String)
  | zeroDivision
deriving DecidableEq

deriving instance DecidableEq for Except

/-- `str(e)` for the modelled exceptions: `str(KeyError('status'))` is
`"'status'"` and `str(ZeroDivisionError(...))` is `"division by zero"`. -/
def pyErrMsg : PyErr → String
  | .keyError k => "'" ++ k ++ "'"
  | .zeroDivision => "division by zero"

/-- Model of Python `s.startswith(p)`, on the character lists. -/
def pyStartsWith (s p : String) : Bool :=
  p.toList.isPrefixOf s.toList

/-- Model of Python `s.replace(str(c), '')` for a one-character pattern:
every occurrence of `c` is removed. -/
def pyRemoveChar (s : String) (c : Char) : String :=
  ⟨s.toList.filter (fun x => x ≠ c)⟩

/-- Model of Python `s.strip()`: leading and trailing whitespace removed. -/
def pyStrip (s : String) : String :=
  ⟨((s.toList.dropWhile Char.isWhitespace).reverse.dropWhile Char.isWhitespace).reverse⟩

/-! ## The logger adapter `YTDLPLogger` (src/main.py lines 9-26)

Each method is modelled as the list of lines it forwards on the `log`
signal for a given message. -/

namespace YTDLPLogger

/-- `YTDLPLogger.debug`: drops messages starting with `'[debug]'`
(source comment: "filter useless lines") and forwards everything else. -/
def debug (msg : String) : List String :=
  if pyStartsWith msg "[debug]" then [] else [msg]

/-- `YTDLPLogger.info`: forwards the message verbatim. -/
def info (msg : String) : List String :=
  [msg]

/-- `YTDLPLogger.warning`: forwards `f"Warning: {msg}"`. -/
def warning (msg : String) : List String :=
  ["Warning: " ++ msg]

/-- `YTDLPLogger.error`: forwards `f"Error: {msg}"`. -/
def error (msg : String) : List String :=
  ["Error: " ++ msg]

end YTDLPLogger

/-! ## The progress hook (src/main.py lines 40-58) -/

/-- A yt-dlp progress dictionary, restricted to the keys the hook reads.
`none` models absence of the key.  Byte counts are naturals; the field
`percent_str` models the dictionary key `_percent_str`. -/
structure ProgressDict where
  status : Option String
  downloaded_bytes : Option Nat
  total_bytes : Option Nat
  total_bytes_estimate : Option Nat
  percent_str : Option String
deriving DecidableEq

/-- Value of a digit string read in base 10. -/
def digitsVal (cs : List Char) : Nat :=
  cs.foldl (fun a c => a * 10 + (c.toNat - 48)) 0

/-- A nonempty all-digit character list parsed as a natural number. -/
def parseNatDigits (cs : List Char) : Option Nat :=
  if cs ≠ [] ∧ cs.all Char.isDigit then some (digitsVal cs) else none

/-- A decimal exponent with optional sign, as accepted after `e`/`E` in a
Python float literal. -/
def parseSignedInt (cs : List Char) : Option Int :=
  match cs with
  | '+' :: rest => (parseNatDigits rest).map Int.ofNat
  | '-' :: rest => (parseNatDigits rest).map (fun n => -(n : Int))
  | _ => (parseNatDigits cs).map Int.ofNat

/-- The unsigned mantissa of a Python float literal, as an exact fraction
numerator/denominator: digits with an optional decimal point, at least one
digit overall (`"37"`, `"37.5"`, `"37."`, `".5"`). -/
def parseMantissa (cs : List Char) : Option (Nat × Nat) :=
  let ip := cs.takeWhile (fun c => c ≠ '.')
  match cs.dropWhile (fun c => c ≠ '.') with
  | [] =>
      if ip ≠ [] ∧ ip.all Char.isDigit then some (digitsVal ip, 1) else none
  | _ :: fp =>
      if (ip ≠ [] ∨ fp ≠ []) ∧ ip.all Char.isDigit ∧ fp.all Char.isDigit ∧ fp.all (fun c => c ≠ '.')
      then some (digitsVal ip * 10 ^ fp.length + digitsVal fp, 10 ^ fp.length)
      else none

/-- Model of Python `float(s)` on finite decimal literals: optional sign,
mantissa, optional `e`/`E` exponent.  The value is returned as an exact
fraction (numerator, positive denominator), not necessarily reduced;
`inf`/`nan` and underscore separators are outside the model. -/
def parseFloat (s : String) : Option (Int × Nat) :=
  let cs := s.toList
  let signAndRest : Bool × List Char :=
    match cs with
    | '+' :: r => (false, r)
    | '-' :: r => (true, r)
    | r => (false, r)
  let mant := signAndRest.2.takeWhile (fun c => c ≠ 'e' ∧ c ≠ 'E')
  let expVal : Option Int :=
    match signAndRest.2.dropWhile (fun c => c ≠ 'e' ∧ c ≠ 'E') with
    | [] => some 0
    | _ :: ecs => parseSignedInt ecs
  match parseMantissa mant, expVal with
  | some nd, some e =>
      let sn : Int := if signAndRest.1 then -(nd.1 : Int) else (nd.1 : Int)
      if 0 ≤ e then some (sn * (10 : Int) ^ e.toNat, nd.2)
      else some (sn, nd.2 * 10 ^ (-e).toNat)
  | _, _ => none

/-- Python `int(x)` on the exact value `num/den` of a float: truncation
toward zero. -/
def pyIntTrunc (p : Int × Nat) : Int :=
  p.1.tdiv (p.2 : Int)

/-- The `elif '_percent_str' in d` branch of the hook: strip `%` and
whitespace, parse as a float and emit its truncation, silently dropping an
unparsable string (the `except (ValueError, AttributeError): pass`). -/
def hookPercentStr (d : ProgressDict) : Except PyErr (List Emit) :=
  match d.percent_str with
  | some ps =>
      match parseFloat (pyStrip (pyRemoveChar ps '%')) with
      | some q => .ok [.progress (pyIntTrunc q)]
      | none => .ok []
  | none => .ok []

/-- The `if d['status'] == 'downloading'` body: the elif chain trying
`downloaded_bytes`/`total_bytes`, then `downloaded_bytes`/
`total_bytes_estimate`, then `_percent_str`.  A zero divisor raises
`ZeroDivisionError` exactly as the unguarded Python division does. -/
def hookDownloading (d : ProgressDict) : Except PyErr (List Emit) :=
  match d.downloaded_bytes, d.total_bytes with
  | some db, some tb =>
      if tb = 0 then .error .zeroDivision
      else .ok [.progress ((db * 100 / tb : Nat) : Int)]
  | some db, none =>
      match d.total_bytes_estimate with
      | some te =>
          if te = 0 then .error .zeroDivision
          else .ok [.progress ((db * 100 / te : Nat) : Int)]
      | none => hookPercentStr d
  | none, _ => hookPercentStr d

/-- The progress hook `DownloadWorker.run.hook`.  The unconditional
`d['status']` lookup raises `KeyError` when the key is absent; a
`"finished"` event emits progress 100 and the "Download finished" line;
any other status emits nothing. -/
def hook (d : ProgressDict) : Except PyErr (List Emit) :=
  match d.status with
  | none => .error (.keyError "status")
  | some st =>
      if st = "downloading" then hookDownloading d
      else if st = "finished" then .ok [.progress 100, .logLine "Download finished"]
      else .ok []

/-! ## The options dictionary `ydl_opts` (src/main.py lines 60-85) -/

/-- One entry of the `postprocessors` list; absent dictionary keys are
`none`.  The source spells `preferedformat` with one `r`, which is kept. -/
structure PostProcessor where
  key : String
  preferredcodec : Option String
  preferredquality : Option String
  preferedformat : Option String
deriving DecidableEq

/-- The keys of `ydl_opts` that the source sets (hooks and logger are the
functions modelled above and are not repeated here). -/
structure YdlOpts where
  outtmpl : String
  verbose : Bool
  format : String
  merge_output_format : Option String
  postprocessors : List PostProcessor
deriving DecidableEq

/-- Model of POSIX `os.path.join(dir, name)` for a relative `name`, the
only use in the source. -/
def osPathJoin (dir name : String) : String :=
  if dir = "" then name
  else if dir.endsWith "/" then dir ++ name
  else dir ++ "/" ++ name

/-- The `ydl_opts` dictionary built by `DownloadWorker.run` from the mode
flag `is_mp3` and the output directory. -/
def buildOpts (is_mp3 : Bool) (output_dir : String) : YdlOpts :=
  let base : YdlOpts :=
    { outtmpl := osPathJoin output_dir "%(title)s.%(ext)s"
      verbose := true
      format := ""
      merge_output_format := none
      postprocessors := [] }
  if is_mp3 then
    { base with
      format := "bestaudio/best"
      postprocessors := [{ key := "FFmpegExtractAudio"
                           preferredcodec := some "mp3"
                           preferredquality := some "320"
                           preferedformat := none }] }
  else
    { base with
      format := "bestvideo[ext=mp4][vcodec^=avc1]+bestaudio[ext=m4a]/bestvideo[ext=mp4]+bestaudio/best[ext=mp4]/best"
      merge_output_format := some "mp4"
      postprocessors := [{ key := "FFmpegVideoConvertor"
                           preferredcodec := none
                           preferredquality := none
                           preferedformat := some "mp4" }] }

/-! ## The worker body `DownloadWorker.run` (src/main.py lines 39-95) -/

/-- Modelled from the spec: Collaborator A (the download/transcode
library, not part of this repository) exposes a single blocking
"download these URLs" operation that invokes the registered progress hook
on a sequence of status dictionaries and then either returns or raises;
an exception raised by the hook itself aborts the operation at that point
and propagates to the caller.  A run of the library is abstracted as the
sequence of hook invocations it performs plus the library's own final
outcome (`Except.error m` models a raised exception with `str` equal to
`m`). -/
structure DownloadRun where
  events : List ProgressDict
  outcome : Except String Unit

/-- Applies the hook to each event in order, accumulating the emissions;
an exception from the hook stops the sequence and is returned as the
raised message. -/
def runHookSeq : List ProgressDict → List Emit × Option String
  | [] => ([], none)
  | d :: rest =>
      match hook d with
      | .ok es =>
          match runHookSeq rest with
          | (es2, err) => (es ++ es2, err)
      | .error e => ([], some (pyErrMsg e))

/-- `ydl.download([url])` under the modelled library: the emissions
produced before return or raise, and the raised message if any (a hook
exception takes effect before the library's own outcome). -/
def ydlDownload (r : DownloadRun) : List Emit × Option String :=
  match runHookSeq r.events with
  | (es, some m) => (es, some m)
  | (es, none) =>
      match r.outcome with
      | .ok _ => (es, none)
      | .error m => (es, some m)

/-- The emissions of one `DownloadWorker.run` call: the MP4-mode log line
when not `is_mp3`, then `"Starting download..."`, the emissions of the
download call, the single `f"Exception: {e}"` line when the `try` body
raised, and the unconditional final `finished` emission. -/
def workerRun (is_mp3 : Bool) (r : DownloadRun) : List Emit :=
  let modeLine : List Emit :=
    if is_mp3 then [] else [.logLine "Mode: MP4 (H.264 / AVC)"]
  let body : List Emit :=
    match ydlDownload r with
    | (es, none) => .logLine "Starting download..." :: es
    | (es, some m) => .logLine "Starting download..." :: (es ++ [.logLine ("Exception: " ++ m)])
  modeLine ++ body ++ [.finishedSignal]

/-- Recognizes the `finished` emission. -/
def isFinishedSignal : Emit → Bool
  | .finishedSignal => true
  | _ => false

/-- Recognizes a log-line emission starting with `"Exception: "`. -/
def isExceptionLine : Emit → Bool
  | .logLine s => pyStartsWith s "Exception: "
  | _ => false

/-- Number of `finished` emissions in a list. -/
def countFinished (es : List Emit) : Nat :=
  (es.filter isFinishedSignal).length

/-- Number of `"Exception: "`-prefixed log lines in a list. -/
def countExceptionLines (es : List Emit) : Nat :=
  (es.filter isExceptionLine).length

/-! ## The window `MainWindow` (src/main.py lines 98-188) -/

/-- The presenter state the claims mention: the two text fields, the radio
choice, the progress-bar value, the log transcript as a list of appended
lines, and whether the Download button is enabled. -/
structure WindowState where
  url_text : String
  output_text : String
  mp3_checked : Bool
  progress_value : Int
  log_lines : List String
  dl_enabled : Bool
deriving DecidableEq

/-- The constructor arguments of a launched `DownloadWorker`. -/
structure JobLaunch where
  url : String
  is_mp3 : Bool
  output_dir : String
deriving DecidableEq

/-- `MainWindow.start_download`: validates the trimmed URL and the trimmed
output path, appending an inline message and launching nothing on failure;
otherwise resets progress, clears the log, disables the button and
launches one worker. -/
def start_download (s : WindowState) : WindowState × Option JobLaunch :=
  let url := pyStrip s.url_text
  if url = "" then
    ({ s with log_lines := s.log_lines ++ ["Please enter a URL"] }, none)
  else
    let output_dir := pyStrip s.output_text
    if output_dir = "" then
      ({ s with log_lines := s.log_lines ++ ["Please select an output folder"] }, none)
    else
      ({ s with progress_value := 0, log_lines := [], dl_enabled := false },
       some { url := url, is_mp3 := s.mp3_checked, output_dir := output_dir })

/-- `MainWindow.download_finished`: re-enables the button and appends the
ready marker. -/
def download_finished (s : WindowState) : WindowState :=
  { s with dl_enabled := true, log_lines := s.log_lines ++ ["Ready"] }

/-- An environment of filesystem facts (which paths are existing
directories and which are writable).  `start_download` receives no such
environment: the source consults the filesystem nowhere. -/
structure FileSystem where
  dirExists : String → Bool
  dirWritable : String → Bool

/-! ## Helper lemmas -/

theorem isPrefixOf_append_self (l m : List Char) : l.isPrefixOf (l ++ m) = true := by
  induction l with
  | nil => simp [List.isPrefixOf]
  | cons a as ih => simp [List.isPrefixOf, ih]

theorem pyStartsWith_append_right (p m : String) : pyStartsWith (p ++ m) p = true := by
  show p.toList.isPrefixOf (p ++ m).toList = true
  have h : (p ++ m).toList = p.toList ++ m.toList := by
    simp [String.toList, String.data_append]
  rw [h]
  exact isPrefixOf_append_self _ _

theorem hookPercentStr_ok_shape (d : ProgressDict) (es : List Emit)
    (h : hookPercentStr d = .ok es) : es = [] ∨ ∃ n, es = [.progress n] := by
  unfold hookPercentStr at h
  split at h
  · split at h
    · exact Or.inr ⟨_, (Except.ok.injEq _ _ ▸ h).symm⟩
    · exact Or.inl (Except.ok.injEq _ _ ▸ h).symm
  · exact Or.inl (Except.ok.injEq _ _ ▸ h).symm

theorem hookDownloading_ok_shape (d : ProgressDict) (es : List Emit)
    (h : hookDownloading d = .ok es) : es = [] ∨ ∃ n, es = [.progress n] := by
  unfold hookDownloading at h
  split at h
  · split at h
    · exact absurd h (by simp)
    · exact Or.inr ⟨_, (Except.ok.injEq _ _ ▸ h).symm⟩
  · split at h
    · split at h
      · exact absurd h (by simp)
      · exact Or.inr ⟨_, (Except.ok.injEq _ _ ▸ h).symm⟩
    · exact hookPercentStr_ok_shape d es h
  · exact hookPercentStr_ok_shape d es h

theorem hook_ok_shape (d : ProgressDict) (es : List Emit) (h : hook d = .ok es) :
    es = [] ∨ (∃ n, es = [.progress n]) ∨ es = [.progress 100, .logLine "Download finished"] := by
  unfold hook at h
  split at h
  · exact absurd h (by simp)
  · split at h
    · rcases hookDownloading_ok_shape d es h with h1 | h1
      · exact Or.inl h1
      · exact Or.inr (Or.inl h1)
    · split at h
      · exact Or.inr (Or.inr (Except.ok.injEq _ _ ▸ h).symm)
      · exact Or.inl (Except.ok.injEq _ _ ▸ h).symm

theorem hook_ok_counts (d : ProgressDict) (es : List Emit) (h : hook d = .ok es) :
    countFinished es = 0 ∧ countExceptionLines es = 0 := by
  rcases hook_ok_shape d es h with h1 | ⟨n, h1⟩ | h1 <;> subst h1
  · exact ⟨rfl, rfl⟩
  · exact ⟨rfl, rfl⟩
  · exact ⟨by decide, by decide⟩

theorem countFinished_append (a b : List Emit) :
    countFinished (a ++ b) = countFinished a + countFinished b := by
  simp [countFinished, List.filter_append]

theorem countExceptionLines_append (a b : List Emit) :
    countExceptionLines (a ++ b) = countExceptionLines a + countExceptionLines b := by
  simp [countExceptionLines, List.filter_append]

theorem countFinished_nil : countFinished [] = 0 := rfl

theorem countExceptionLines_nil : countExceptionLines [] = 0 := rfl

theorem countFinished_cons_log (s : String) (l : List Emit) :
    countFinished (Emit.logLine s :: l) = countFinished l := by
  simp [countFinished, List.filter_cons, isFinishedSignal]

theorem countFinished_cons_fin (l : List Emit) :
    countFinished (Emit.finishedSignal :: l) = countFinished l + 1 := by
  simp [countFinished, List.filter_cons, isFinishedSignal, Nat.add_comm]

theorem countExceptionLines_cons_log (s : String) (l : List Emit)
    (h : pyStartsWith s "Exception: " = false) :
    countExceptionLines (Emit.logLine s :: l) = countExceptionLines l := by
  simp [countExceptionLines, List.filter_cons, isExceptionLine, h]

theorem countExceptionLines_cons_exc (s : String) (l : List Emit)
    (h : pyStartsWith s "Exception: " = true) :
    countExceptionLines (Emit.logLine s :: l) = countExceptionLines l + 1 := by
  simp [countExceptionLines, List.filter_cons, isExceptionLine, h, Nat.add_comm]

theorem countExceptionLines_cons_fin (l : List Emit) :
    countExceptionLines (Emit.finishedSignal :: l) = countExceptionLines l := by
  simp [countExceptionLines, List.filter_cons, isExceptionLine]

theorem runHookSeq_cons_ok (d : ProgressDict) (rest : List ProgressDict) (es : List Emit)
    (h : hook d = .ok es) :
    runHookSeq (d :: rest) = (es ++ (runHookSeq rest).1, (runHookSeq rest).2) := by
  simp only [runHookSeq, h]

theorem runHookSeq_cons_error (d : ProgressDict) (rest : List ProgressDict) (e : PyErr)
    (h : hook d = .error e) :
    runHookSeq (d :: rest) = ([], some (pyErrMsg e)) := by
  unfold runHookSeq
  rw [h]

theorem runHookSeq_counts (evs : List ProgressDict) :
    countFinished (runHookSeq evs).1 = 0 ∧ countExceptionLines (runHookSeq evs).1 = 0 := by
  induction evs with
  | nil => exact ⟨rfl, rfl⟩
  | cons d rest ih =>
      rcases hh : hook d with e | es
      · rw [runHookSeq_cons_error d rest e hh]
        exact ⟨rfl, rfl⟩
      · rw [runHookSeq_cons_ok d rest es hh]
        have h1 := hook_ok_counts d es hh
        simp only [countFinished_append, countExceptionLines_append]
        omega

theorem ydlDownload_fst (r : DownloadRun) : (ydlDownload r).1 = (runHookSeq r.events).1 := by
  unfold ydlDownload
  rcases h : runHookSeq r.events with ⟨es, err⟩
  rcases err with _ | m
  · rcases r.outcome with _ | m <;> rfl
  · rfl

theorem ydlDownload_counts (r : DownloadRun) :
    countFinished (ydlDownload r).1 = 0 ∧ countExceptionLines (ydlDownload r).1 = 0 := by
  rw [ydlDownload_fst]
  exact runHookSeq_counts r.events

theorem workerRun_eq (is_mp3 : Bool) (r : DownloadRun) :
    workerRun is_mp3 r =
      (if is_mp3 then [] else [.logLine "Mode: MP4 (H.264 / AVC)"])
        ++ (match ydlDownload r with
            | (es, none) => Emit.logLine "Starting download..." :: es
            | (es, some m) =>
                Emit.logLine "Starting download..." :: (es ++ [.logLine ("Exception: " ++ m)]))
        ++ [.finishedSignal] := rfl

theorem workerRun_counts (is_mp3 : Bool) (r : DownloadRun) :
    countFinished (workerRun is_mp3 r) = 1
    ∧ countExceptionLines (workerRun is_mp3 r) =
        (match (ydlDownload r).2 with | none => 0 | some _ => 1) := by
  rw [workerRun_eq]
  have hc := ydlDownload_counts r
  have hstart : pyStartsWith "Starting download..." "Exception: " = false := by decide
  have hmode : pyStartsWith "Mode: MP4 (H.264 / AVC)" "Exception: " = false := by decide
  rcases hy : ydlDownload r with ⟨es, err⟩
  rw [hy] at hc
  have hc1 : countFinished es = 0 := hc.1
  have hc2 : countExceptionLines es = 0 := hc.2
  rcases err with _ | m <;> cases is_mp3 <;>
    simp only [Bool.false_eq_true, eq_self_iff_true, if_true, if_false,
      List.nil_append, countFinished_append,
      countExceptionLines_append, countFinished_cons_log, countFinished_cons_fin,
      countExceptionLines_cons_log, countExceptionLines_cons_exc, countExceptionLines_cons_fin,
      countFinished_nil, countExceptionLines_nil, hstart, hmode,
      pyStartsWith_append_right, hc1, hc2] <;>
    exact ⟨trivial, trivial⟩

/-! ## Claims -/

/-- C1: on a `"downloading"` progress event, the emitted percent follows
the priority `downloaded_bytes`/`total_bytes`, then `downloaded_bytes`/
`total_bytes_estimate`, then the parsed `_percent_str` truncated to an
integer with an unparsable string discarded silently; when none of these
fields are present no progress is emitted. -/
theorem C1_progress_priority (d : ProgressDict) (hst : d.status = some "downloading") :
    (∀ db tb, d.downloaded_bytes = some db → d.total_bytes = some tb → tb ≠ 0 →
        hook d = .ok [.progress ((db * 100 / tb : Nat) : Int)])
    ∧ (∀ db te, d.downloaded_bytes = some db → d.total_bytes = none →
        d.total_bytes_estimate = some te → te ≠ 0 →
        hook d = .ok [.progress ((db * 100 / te : Nat) : Int)])
    ∧ ((d.downloaded_bytes = none ∨ (d.total_bytes = none ∧ d.total_bytes_estimate = none)) →
        ∀ ps, d.percent_str = some ps →
          (∀ q, parseFloat (pyStrip (pyRemoveChar ps '%')) = some q →
              hook d = .ok [.progress (pyIntTrunc q)])
          ∧ (parseFloat (pyStrip (pyRemoveChar ps '%')) = none → hook d = .ok []))
    ∧ ((d.downloaded_bytes = none ∨ (d.total_bytes = none ∧ d.total_bytes_estimate = none)) →
        d.percent_str = none → hook d = .ok []) := by
  obtain ⟨st, db0, tb0, te0, ps0⟩ := d
  simp only at hst
  subst hst
  refine ⟨?_, ?_, ?_, ?_⟩
  · intro db tb hdb htb hne
    simp only at hdb htb
    subst hdb; subst htb
    simp [hook, hookDownloading, hne]
  · intro db te hdb htb hte hne
    simp only at hdb htb hte
    subst hdb; subst htb; subst hte
    simp [hook, hookDownloading, hne]
  · intro hcase ps hps
    simp only at hps
    subst hps
    constructor
    · intro q hq
      rcases hcase with h1 | ⟨h1, h2⟩
      · simp only at h1
        subst h1
        rcases tb0 with _ | tb <;> simp [hook, hookDownloading, hookPercentStr, hq]
      · simp only at h1 h2
        subst h1; subst h2
        rcases db0 with _ | db <;> simp [hook, hookDownloading, hookPercentStr, hq]
    · intro hq
      rcases hcase with h1 | ⟨h1, h2⟩
      · simp only at h1
        subst h1
        rcases tb0 with _ | tb <;> simp [hook, hookDownloading, hookPercentStr, hq]
      · simp only at h1 h2
        subst h1; subst h2
        rcases db0 with _ | db <;> simp [hook, hookDownloading, hookPercentStr, hq]
  · intro hcase hps
    simp only at hps
    subst hps
    rcases hcase with h1 | ⟨h1, h2⟩
    · simp only at h1
      subst h1
      rcases tb0 with _ | tb <;> simp [hook, hookDownloading, hookPercentStr]
    · simp only at h1 h2
      subst h1; subst h2
      rcases db0 with _ | db <;> simp [hook, hookDownloading, hookPercentStr]

/-- C1 witness: the spec's four worked examples, obtained from
`C1_progress_priority` at concrete event dictionaries. -/
theorem C1_progress_priority_witness :
    hook ⟨some "downloading", some 50, some 100, none, none⟩ = .ok [.progress 50]
    ∧ hook ⟨some "downloading", some 1, none, some 4, none⟩ = .ok [.progress 25]
    ∧ hook ⟨some "downloading", none, none, none, some "37.5%"⟩ = .ok [.progress 37]
    ∧ hook ⟨some "downloading", none, none, none, none⟩ = .ok [] := by
  refine ⟨?_, ?_, ?_, ?_⟩
  · have h := (C1_progress_priority ⟨some "downloading", some 50, some 100, none, none⟩ rfl).1
      50 100 rfl rfl (by decide)
    rw [h]
    decide
  · have h := (C1_progress_priority ⟨some "downloading", some 1, none, some 4, none⟩ rfl).2.1
      1 4 rfl rfl rfl (by decide)
    rw [h]
    decide
  · have h := ((C1_progress_priority ⟨some "downloading", none, none, none, some "37.5%"⟩
      rfl).2.2.1 (Or.inl rfl) "37.5%" rfl).1 (375, 10) (by decide)
    rw [h]
    decide
  · exact (C1_progress_priority ⟨some "downloading", none, none, none, none⟩ rfl).2.2.2
      (Or.inl rfl) rfl

/-- C2 as stated is false: a debug-level message that does not start with
`'[debug]'` is forwarded, not suppressed. -/
theorem C2_counterexample : ¬ (∀ msg : String, YTDLPLogger.debug msg = []) := by
  intro h
  exact absurd (h "hello") (by decide)

/-- C2 amended: a debug-level message starting with `'[debug]'` is
suppressed; any other debug-level message is forwarded verbatim. -/
theorem C2_debug_filter :
    (∀ msg : String, pyStartsWith msg "[debug]" = true → YTDLPLogger.debug msg = [])
    ∧ (∀ msg : String, pyStartsWith msg "[debug]" = false → YTDLPLogger.debug msg = [msg]) := by
  constructor <;> intro msg h <;> simp [YTDLPLogger.debug, h]

/-- C2 witness: both branches of the amended claim at concrete messages. -/
theorem C2_debug_filter_witness :
    YTDLPLogger.debug "[debug] x" = [] ∧ YTDLPLogger.debug "hello" = ["hello"] :=
  ⟨C2_debug_filter.1 "[debug] x" (by decide), C2_debug_filter.2 "hello" (by decide)⟩

/-- C3: a warning-level call forwards exactly `"Warning: " ++ m`, an
error-level call `"Error: " ++ m`, and an info-level call `m` verbatim. -/
theorem C3_logger_severity (m : String) :
    YTDLPLogger.warning m = ["Warning: " ++ m]
    ∧ YTDLPLogger.error m = ["Error: " ++ m]
    ∧ YTDLPLogger.info m = [m] :=
  ⟨rfl, rfl, rfl⟩

/-- C4: whenever the download call raises (message `m`), the worker body
catches it, the full emission list appends one `"Exception: " ++ m` log
line and the final `finished` signal after the emissions already produced,
and in total exactly one `"Exception: "`-prefixed log line is emitted. -/
theorem C4_exception_swallowed (is_mp3 : Bool) (r : DownloadRun)
    (es : List Emit) (m : String) (h : ydlDownload r = (es, some m)) :
    workerRun is_mp3 r =
      (if is_mp3 then [] else [.logLine "Mode: MP4 (H.264 / AVC)"])
        ++ (.logLine "Starting download..." :: (es ++ [.logLine ("Exception: " ++ m)]))
        ++ [.finishedSignal]
    ∧ countExceptionLines (workerRun is_mp3 r) = 1 := by
  constructor
  · rw [workerRun_eq, h]
  · have hw := (workerRun_counts is_mp3 r).2
    rw [h] at hw
    exact hw

/-- C4 witness: a run whose download call raises with message "boom". -/
theorem C4_exception_swallowed_witness :
    workerRun true ⟨[], .error "boom"⟩ =
      (if true then [] else [.logLine "Mode: MP4 (H.264 / AVC)"])
        ++ (.logLine "Starting download..." :: (([] : List Emit) ++ [.logLine ("Exception: " ++ "boom")]))
        ++ [.finishedSignal]
    ∧ countExceptionLines (workerRun true ⟨[], .error "boom"⟩) = 1 :=
  C4_exception_swallowed true ⟨[], .error "boom"⟩ [] "boom" rfl

/-- C5: every worker run emits the completion signal exactly once, on the
success, failure and throwing paths alike, and on receipt the controller
re-enables the start control and appends the ready marker. -/
theorem C5_finished_exactly_once (is_mp3 : Bool) (r : DownloadRun) (s : WindowState) :
    countFinished (workerRun is_mp3 r) = 1
    ∧ (download_finished s).dl_enabled = true
    ∧ (download_finished s).log_lines = s.log_lines ++ ["Ready"] :=
  ⟨(workerRun_counts is_mp3 r).1, rfl, rfl⟩

/-- C6: a start request with an empty trimmed URL or an empty output
directory launches no job; exactly one inline message is appended to the
log and everything else in the state, including the enabled flag, the
progress value and the existing transcript, is unchanged. -/
theorem C6_precondition_failure (s : WindowState)
    (h : pyStrip s.url_text = "" ∨ pyStrip s.output_text = "") :
    (start_download s).2 = none
    ∧ (∃ msg, (start_download s).1 = { s with log_lines := s.log_lines ++ [msg] })
    ∧ (start_download s).1.dl_enabled = s.dl_enabled
    ∧ (start_download s).1.progress_value = s.progress_value := by
  by_cases hu : pyStrip s.url_text = ""
  · unfold start_download
    simp only [hu, if_pos rfl]
    exact ⟨rfl, ⟨"Please enter a URL", rfl⟩, rfl, rfl⟩
  · have ho : pyStrip s.output_text = "" := h.resolve_left hu
    unfold start_download
    simp only [if_neg hu, ho, if_pos rfl]
    exact ⟨rfl, ⟨"Please select an output folder", rfl⟩, rfl, rfl⟩

/-- C6 witness: an empty URL with a selected output directory. -/
theorem C6_precondition_failure_witness :
    (start_download ⟨"", "dir", false, 5, ["old"], true⟩).2 = none
    ∧ (∃ msg, (start_download ⟨"", "dir", false, 5, ["old"], true⟩).1 =
        { url_text := "", output_text := "dir", mp3_checked := false, progress_value := 5,
          log_lines := ["old"] ++ [msg], dl_enabled := true })
    ∧ (start_download ⟨"", "dir", false, 5, ["old"], true⟩).1.dl_enabled = true
    ∧ (start_download ⟨"", "dir", false, 5, ["old"], true⟩).1.progress_value = 5 :=
  C6_precondition_failure ⟨"", "dir", false, 5, ["old"], true⟩ (Or.inl (by decide))

/-- C7: a start request with a non-empty trimmed URL and a non-empty
trimmed output directory resets progress to 0, clears the log, disables
the start control, and launches exactly one worker carrying the trimmed
URL, the selected mode and the trimmed output directory. -/
theorem C7_start_success (s : WindowState)
    (h1 : pyStrip s.url_text ≠ "") (h2 : pyStrip s.output_text ≠ "") :
    start_download s =
      ({ s with progress_value := 0, log_lines := [], dl_enabled := false },
       some { url := pyStrip s.url_text, is_mp3 := s.mp3_checked,
              output_dir := pyStrip s.output_text }) := by
  unfold start_download
  simp only [if_neg h1, if_neg h2]

/-- C7 witness: a concrete start request with whitespace-padded inputs. -/
theorem C7_start_success_witness :
    start_download ⟨" u ", " d ", true, 5, ["old"], true⟩ =
      (⟨" u ", " d ", true, 0, [], false⟩, some ⟨"u", true, "d"⟩) := by
  rw [C7_start_success ⟨" u ", " d ", true, 5, ["old"], true⟩ (by decide) (by decide)]
  decide

/-- C8: the options object is determined by the mode: AUDIO gives
`bestaudio/best` with the 320-quality MP3 extract step, VIDEO gives the
H.264/MP4+M4A selector with its fallback chain, MP4 merge format and the
MP4 convert step, and both modes use the `%(title)s.%(ext)s` template
inside the chosen output directory. -/
theorem C8_opts_by_mode (output_dir : String) :
    (buildOpts true output_dir).format = "bestaudio/best"
    ∧ (buildOpts true output_dir).postprocessors =
        [{ key := "FFmpegExtractAudio", preferredcodec := some "mp3",
           preferredquality := some "320", preferedformat := none }]
    ∧ (buildOpts false output_dir).format =
        "bestvideo[ext=mp4][vcodec^=avc1]+bestaudio[ext=m4a]/bestvideo[ext=mp4]+bestaudio/best[ext=mp4]/best"
    ∧ (buildOpts false output_dir).merge_output_format = some "mp4"
    ∧ (buildOpts false output_dir).postprocessors =
        [{ key := "FFmpegVideoConvertor", preferredcodec := none,
           preferredquality := none, preferedformat := some "mp4" }]
    ∧ (∀ b : Bool, (buildOpts b output_dir).outtmpl = osPathJoin output_dir "%(title)s.%(ext)s") := by
  refine ⟨rfl, rfl, rfl, rfl, rfl, ?_⟩
  intro b
  cases b <;> rfl

/-- C9 as stated is false: the presenter never checks existence or
writability, so a job can start while the chosen directory does not exist
and is not writable in the surrounding filesystem. -/
theorem C9_counterexample :
    ¬ (∀ (fs : FileSystem) (s : WindowState) (j : JobLaunch),
        (start_download s).2 = some j →
          fs.dirExists j.output_dir = true ∧ fs.dirWritable j.output_dir = true) := by
  intro h
  have hc := h ⟨fun _ => false, fun _ => false⟩ ⟨"u", "d", false, 0, [], true⟩
    ⟨"u", false, "d"⟩ (by decide)
  simpa using hc.1

/-- C9 amended: for every job that actually starts, the output directory
is the trimmed text of the output field and is non-empty; no existence or
writability check is performed. -/
theorem C9_output_dir_nonempty (s : WindowState) (j : JobLaunch)
    (h : (start_download s).2 = some j) :
    j.output_dir = pyStrip s.output_text ∧ j.output_dir ≠ "" := by
  unfold start_download at h
  by_cases hu : pyStrip s.url_text = ""
  · rw [if_pos hu] at h
    exact absurd h (by simp)
  · rw [if_neg hu] at h
    by_cases ho : pyStrip s.output_text = ""
    · rw [if_pos ho] at h
      exact absurd h (by simp)
    · rw [if_neg ho] at h
      simp only [Option.some.injEq] at h
      subst h
      exact ⟨rfl, ho⟩

/-- C9 amended witness: a started job and its non-empty directory. -/
theorem C9_output_dir_nonempty_witness :
    ("d" : String) = pyStrip " d " ∧ ("d" : String) ≠ "" := by
  have h := C9_output_dir_nonempty ⟨"u", " d ", false, 0, [], true⟩ ⟨"u", false, "d"⟩ (by decide)
  exact ⟨by decide, h.2⟩

/-- C10: a malformed event that makes the hook itself raise — a
`"downloading"` event with `total_bytes` zero, or an event without a
`status` key — aborts the job through the boundary handler with a single
`"Exception: "` log line and a single completion signal. -/
theorem C10_hook_exception_to_boundary (is_mp3 : Bool) (r : DownloadRun) (d : ProgressDict)
    (hev : r.events = [d])
    (hbad : d.status = none
      ∨ (d.status = some "downloading" ∧ (∃ db, d.downloaded_bytes = some db)
          ∧ d.total_bytes = some 0)) :
    (∃ e : PyErr, hook d = .error e
      ∧ workerRun is_mp3 r =
          (if is_mp3 then [] else [.logLine "Mode: MP4 (H.264 / AVC)"])
            ++ [.logLine "Starting download...", .logLine ("Exception: " ++ pyErrMsg e),
                .finishedSignal])
    ∧ countExceptionLines (workerRun is_mp3 r) = 1
    ∧ countFinished (workerRun is_mp3 r) = 1 := by
  have herr : ∃ e : PyErr, hook d = .error e := by
    rcases hbad with h1 | ⟨h1, ⟨db, h2⟩, h3⟩
    · exact ⟨.keyError "status", by simp [hook, h1]⟩
    · exact ⟨.zeroDivision, by simp [hook, hookDownloading, h1, h2, h3]⟩
  rcases herr with ⟨e, he⟩
  have hseq : runHookSeq r.events = ([], some (pyErrMsg e)) := by
    rw [hev]
    exact runHookSeq_cons_error d [] e he
  have hdl : ydlDownload r = ([], some (pyErrMsg e)) := by
    unfold ydlDownload
    rw [hseq]
  refine ⟨⟨e, he, ?_⟩, ?_, ?_⟩
  · rw [workerRun_eq, hdl]
    simp [List.append_assoc]
  · have hw := (workerRun_counts is_mp3 r).2
    rw [hdl] at hw
    exact hw
  · exact (workerRun_counts is_mp3 r).1

/-- C10 witness: a `"downloading"` event with `total_bytes = 0`. -/
theorem C10_hook_exception_to_boundary_witness :
    (∃ e : PyErr, hook ⟨some "downloading", some 5, some 0, none, none⟩ = .error e
      ∧ workerRun true ⟨[⟨some "downloading", some 5, some 0, none, none⟩], .ok ()⟩ =
          (if true then [] else [.logLine "Mode: MP4 (H.264 / AVC)"])
            ++ [.logLine "Starting download...", .logLine ("Exception: " ++ pyErrMsg e),
                .finishedSignal])
    ∧ countExceptionLines
        (workerRun true ⟨[⟨some "downloading", some 5, some 0, none, none⟩], .ok ()⟩) = 1
    ∧ countFinished
        (workerRun true ⟨[⟨some "downloading", some 5, some 0, none, none⟩], .ok ()⟩) = 1 :=
  C10_hook_exception_to_boundary true ⟨[⟨some "downloading", some 5, some 0, none, none⟩], .ok ()⟩
    ⟨some "downloading", some 5, some 0, none, none⟩ rfl
    (Or.inr ⟨rfl, ⟨5, rfl⟩, rfl⟩)

end YTGui
